import Mathlib

/-!
Verification of `evolving_agents/workflow/workflow_processor.py`.

The module is a thin adapter: `WorkflowProcessor.process_workflow` parses a
YAML string, extracts metadata, assembles a natural-language prompt, invokes
a pluggable agent, and repackages the reply of the agent as a structured outcome
dictionary.

Embedding choices:
* YAML values are modelled by `YamlValue` (Python objects produced by
  `yaml.safe_load`); mappings are association lists with string keys
  (see the `YamlValue` doc comment), matching Python `dict` lookup.
* `yaml.safe_load` itself is an external library, so it is an explicit
  function parameter `safe_load : String → Except String YamlValue`; an
  `Except.error` carries `str(e)`, the diagnostic Python would embed.
* Uncaught Python exceptions are `PyExc`; a run of the method either returns
  a value (`Except.ok`) or raises (`Except.error`).
* The agent (interface `IAgent`, whose source file is not part of the
  repository snapshot; modelled from the backend contract in the spec: one
  operation taking an instruction string and returning an object with a
  textual payload at `result.text`) is a function from the prompt to either
  a response or a raised exception.
* The method is instrumented with a trace: the list of prompts passed to
  `agent.run` during the call (empty or a singleton), so that claims about
  "the instruction sent to the backend" are statable.
* `str()` on non-string values (`pyStr`/`pyRepr`) is modelled exactly for
  scalars; inside container reprs, non-printable characters above ASCII are
  kept verbatim.
-/

/-- A Python value produced by `yaml.safe_load`: `None`, `bool`, `int`,
`str`, `list`, or `dict` (association list, first binding wins on lookup,
as Python dicts have unique keys). Mapping keys are modelled as strings:
the component only ever looks up the string keys `"scenario_name"`,
`"domain"` and `"additional_disclaimers"`, and a non-string YAML key never
equals any of them, i.e. behaves exactly like an absent key. -/
inductive YamlValue where
  | null : YamlValue
  | bool (b : Bool) : YamlValue
  | int (n : Int) : YamlValue
  | str (s : String) : YamlValue
  | list (xs : List YamlValue) : YamlValue
  | map (kvs : List (String × YamlValue)) : YamlValue

/-- An uncaught Python exception: an `AttributeError` (raised by `.get` on a
non-dict) or any other exception (e.g. one raised inside the agent),
identified by its message. -/
inductive PyExc where
  | attributeError (msg : String) : PyExc
  | exc (msg : String) : PyExc
deriving DecidableEq

/-- A JSON-serializable Python value passed in the `params` dict
(`json.dumps` is applied to it). -/
inductive JsonValue where
  | null : JsonValue
  | bool (b : Bool) : JsonValue
  | num (n : Int) : JsonValue
  | str (s : String) : JsonValue
  | arr (xs : List JsonValue) : JsonValue
  | obj (kvs : List (String × JsonValue)) : JsonValue

/-- Lookup modelling `d.get key default` on a Python dict: the first binding of `key`, or
`none` when absent. -/
def dictLookup : List (String × YamlValue) → String → Option YamlValue
  | [], _ => none
  | (k, v) :: rest, key => if k = key then some v else dictLookup rest key

/-- Python `dict.get` with a default. -/
def dictGet (d : List (String × YamlValue)) (key : String) (default : YamlValue) : YamlValue :=
  (dictLookup d key).getD default

/-- Python type name `type(v).__name__` for the modelled values. -/
def pyTypeName : YamlValue → String
  | .null => "NoneType"
  | .bool _ => "bool"
  | .int _ => "int"
  | .str _ => "str"
  | .list _ => "list"
  | .map _ => "dict"

/-- Lowercase hex digit. -/
def hexDigit (n : Nat) : Char :=
  if n < 10 then Char.ofNat (48 + n) else Char.ofNat (87 + n)

/-- Two lowercase hex digits. -/
def hex2 (n : Nat) : String :=
  String.mk [hexDigit (n / 16 % 16), hexDigit (n % 16)]

/-- Four lowercase hex digits. -/
def hex4 (n : Nat) : String :=
  String.mk [hexDigit (n / 4096 % 16), hexDigit (n / 256 % 16),
    hexDigit (n / 16 % 16), hexDigit (n % 16)]

/-- The quote character Python `repr` picks for a string: double quote when
the string has a single quote but no double quote, else single quote. -/
def pyReprQuote (s : String) : Char :=
  if s.data.contains (Char.ofNat 39) && !(s.data.contains (Char.ofNat 34)) then
    Char.ofNat 34
  else Char.ofNat 39

/-- One character inside a Python string repr with quote `q`: backslash and
the quote are escaped, `\n`/`\r`/`\t` use short escapes, other ASCII control
characters and DEL become `\xXX`. -/
def pyReprChar (q : Char) (c : Char) : String :=
  if c = Char.ofNat 92 then "\\\\"
  else if c = q then String.mk [Char.ofNat 92, q]
  else if c = Char.ofNat 10 then "\\n"
  else if c = Char.ofNat 13 then "\\r"
  else if c = Char.ofNat 9 then "\\t"
  else if c.toNat < 32 || c.toNat = 127 then "\\x" ++ hex2 c.toNat
  else String.singleton c

/-- Python `repr` of a `str`. -/
def pyReprStr (s : String) : String :=
  let q := pyReprQuote s
  String.singleton q ++ String.join (s.data.map (pyReprChar q)) ++ String.singleton q

mutual
/-- Python `repr` of a modelled value. -/
def pyRepr : YamlValue → String
  | .null => "None"
  | .bool b => if b then "True" else "False"
  | .int n => toString n
  | .str s => pyReprStr s
  | .list xs => "[" ++ pyReprList xs ++ "]"
  | .map kvs => "\x7b" ++ pyReprMap kvs ++ "\x7d"

/-- Comma-separated reprs of list elements. -/
def pyReprList : List YamlValue → String
  | [] => ""
  | [x] => pyRepr x
  | x :: y :: xs => pyRepr x ++ ", " ++ pyReprList (y :: xs)

/-- Comma-separated `key: value` reprs of dict items. -/
def pyReprMap : List (String × YamlValue) → String
  | [] => ""
  | [(k, v)] => pyReprStr k ++ ": " ++ pyRepr v
  | (k, v) :: kv :: kvs => pyReprStr k ++ ": " ++ pyRepr v ++ ", " ++ pyReprMap (kv :: kvs)
end

/-- Python `str()` as used by f-string interpolation: identity on `str`,
`repr`-based otherwise. -/
def pyStr : YamlValue → String
  | .str s => s
  | v => pyRepr v

/-- One character inside a JSON string literal, as Python `json.dumps`
renders it with the default `ensure_ascii=True`: quote and backslash are
escaped, the usual short escapes are used for control characters that have
them, every other character outside the printable ASCII range `0x20..0x7e`
becomes `\uXXXX` (a surrogate pair above the BMP). -/
def jsonEscapeChar (c : Char) : String :=
  if c = Char.ofNat 34 then "\\\""
  else if c = Char.ofNat 92 then "\\\\"
  else if c = Char.ofNat 10 then "\\n"
  else if c = Char.ofNat 13 then "\\r"
  else if c = Char.ofNat 9 then "\\t"
  else if c.toNat = 8 then "\\b"
  else if c.toNat = 12 then "\\f"
  else if c.toNat < 32 || c.toNat > 126 then
    if c.toNat ≤ 65535 then "\\u" ++ hex4 c.toNat
    else
      "\\u" ++ hex4 (55296 + (c.toNat - 65536) / 1024) ++
        "\\u" ++ hex4 (56320 + (c.toNat - 65536) % 1024)
  else String.singleton c

/-- A JSON string literal for `s`, as `json.dumps` renders it. -/
def jsonQuote (s : String) : String :=
  "\"" ++ String.join (s.data.map jsonEscapeChar) ++ "\""

/-- A run of `n` spaces. -/
def spaces (n : Nat) : String := String.mk (List.replicate n ' ')

mutual
/-- Rendering of `json.dumps(v, indent=2)` at nesting level `lvl`: containers open on
their own line, members are indented two more spaces per level, the closing
bracket is indented at the own level of the container, and the item separator is
`,` followed by the newline-indent (the default separators of Python when an
`indent` is given). -/
def jsonRender (lvl : Nat) : JsonValue → String
  | .null => "null"
  | .bool b => if b then "true" else "false"
  | .num n => toString n
  | .str s => jsonQuote s
  | .arr [] => "[]"
  | .arr (x :: xs) =>
    "[\n" ++ spaces (2 * (lvl + 1)) ++ jsonRenderArr lvl x xs ++
      "\n" ++ spaces (2 * lvl) ++ "]"
  | .obj [] => "\x7b\x7d"
  | .obj ((k, v) :: kvs) =>
    "\x7b\n" ++ spaces (2 * (lvl + 1)) ++ jsonRenderObj lvl k v kvs ++
      "\n" ++ spaces (2 * lvl) ++ "\x7d"
termination_by v => sizeOf v

/-- The members of a non-empty JSON array, separated by `,\n` + indent. -/
def jsonRenderArr (lvl : Nat) (x : JsonValue) : List JsonValue → String
  | [] => jsonRender (lvl + 1) x
  | y :: ys =>
    jsonRender (lvl + 1) x ++ ",\n" ++ spaces (2 * (lvl + 1)) ++
      jsonRenderArr lvl y ys
termination_by xs => sizeOf x + sizeOf xs

/-- The members of a non-empty JSON object, separated by `,\n` + indent. -/
def jsonRenderObj (lvl : Nat) (k : String) (v : JsonValue) :
    List (String × JsonValue) → String
  | [] => jsonQuote k ++ ": " ++ jsonRender (lvl + 1) v
  | (k2, v2) :: kvs =>
    jsonQuote k ++ ": " ++ jsonRender (lvl + 1) v ++ ",\n" ++
      spaces (2 * (lvl + 1)) ++ jsonRenderObj lvl k2 v2 kvs
termination_by kvs => sizeOf v + sizeOf kvs
end

/-- Top-level `json.dumps(params, indent=2)` on the `params` dict. -/
def json_dumps_indent2 (d : List (String × JsonValue)) : String :=
  jsonRender 0 (.obj d)

/-- Local variable `params_section` of `process_workflow`: `""` when `params` is
falsy (`None` or the empty dict), else a header plus the pretty-printed
dump. -/
def params_section_of : Option (List (String × JsonValue)) → String
  | some (kv :: kvs) => "\nParameters:\n" ++ json_dumps_indent2 (kv :: kvs)
  | _ => ""

/-- The f-string prompt up to the interpolated `domain` value. -/
def promptSeg1 : String :=
  "\n        I need to process this workflow YAML for domain \x27"

/-- The closing quote after `domain`, before `params_section`. -/
def promptSeg2 : String := "\x27"

/-- From after `params_section` to the start of the fenced YAML text. -/
def promptSeg3 : String := ":\n        \n        ```yaml\n        "

/-- From after the fenced YAML text through the fixed step-execution
directives. -/
def promptSeg4 : String :=
  "\n        ```\n        \n        Please execute this workflow step by step and provide the results for each step.\n        For each step, indicate the step type, what action was performed, and the outcome.\n        \n        When executing tools or agents, show the input and output for each execution.\n        "

/-- The final placeholder-substitution directive (the `\x7b\x7b`/`\x7d\x7d`
of the f-string render as literal braces). -/
def promptSeg5 : String :=
  "When you see placeholders like \x7bparams.some_variable\x7d, replace them with the corresponding value from the parameters.\n        "

/-- The prompt assembled by `process_workflow` (its `f\"\"\"...\"\"\"`
literal): f-string interpolation applies `str()` to `domain`. -/
def buildPrompt (domain : YamlValue) (params_section : String)
    (workflow_yaml : String) : String :=
  promptSeg1 ++ pyStr domain ++ promptSeg2 ++ params_section ++ promptSeg3 ++
    workflow_yaml ++ promptSeg4 ++ promptSeg5

/-- The object at the attribute path `response.result.text`. -/
structure AgentResult where
  text : String

/-- The object returned by `agent.run`. -/
structure AgentResponse where
  result : AgentResult

/-- Modelled from the spec: the `IAgent` interface
(`evolving_agents/core/base.py`, not in the repository snapshot) — the
execution backend exposes a single awaited operation that takes an
instruction string and returns a response carrying a textual payload at
`result.text`; the call may instead raise, which is modelled by
`Except.error`. -/
structure IAgent where
  run : String → Except PyExc AgentResponse

/-- The outcome dictionary returned by `process_workflow`: either the error
shape `{status: "error", message}` or the success shape
`{status: "success", scenario_name, domain, result, message}`
(`scenario_name` and `domain` hold whatever values `dict.get` returned). -/
inductive Outcome where
  | error (message : String) : Outcome
  | success (scenario_name domain : YamlValue) (result message : String) : Outcome

/-- The adapter state: the optional agent reference set at construction
(`__init__`) or by `set_agent`. -/
structure WorkflowProcessor where
  agent : Option IAgent

/-- Constructor `WorkflowProcessor.__init__`. -/
def WorkflowProcessor.init (agent : Option IAgent) : WorkflowProcessor :=
  { agent := agent }

/-- Setter `WorkflowProcessor.set_agent`. -/
def WorkflowProcessor.set_agent (self : WorkflowProcessor) (agent : IAgent) :
    WorkflowProcessor :=
  { self with agent := some agent }

/-- The metadata extraction of `process_workflow` (lines 56–58):
`workflow.get` with the three defaults. The third component
(`disclaimers`) is extracted and then unused by the rest of the method. -/
def extract_metadata (workflow : List (String × YamlValue)) :
    YamlValue × YamlValue × YamlValue :=
  (dictGet workflow "scenario_name" (.str "Unnamed Scenario"),
   dictGet workflow "domain" (.str "general"),
   dictGet workflow "additional_disclaimers" (.list []))

/-- Method `WorkflowProcessor.process_workflow`, instrumented with the list of
prompts passed to `agent.run` during the call, and threading the adapter
state (the method performs no assignment, so the state it finishes with is
the state it was called with). The outer `Except PyExc` distinguishes a
normal return (`ok`) from an uncaught exception (`error`): `.get` on a
non-dict parse result raises `AttributeError`, and an exception raised by
`agent.run` propagates unconverted — only the `yaml.safe_load` call sits
inside a `try`. -/
def WorkflowProcessor.process_workflow (self : WorkflowProcessor)
    (safe_load : String → Except String YamlValue)
    (workflow_yaml : String)
    (params : Option (List (String × JsonValue))) :
    (Except PyExc Outcome × List String) × WorkflowProcessor :=
  match self.agent with
  | none => ((.ok (.error "No agent set for workflow processing"), []), self)
  | some agent =>
    match safe_load workflow_yaml with
    | .error e => ((.ok (.error ("Error parsing workflow YAML: " ++ e)), []), self)
    | .ok (.map workflow) =>
      let md := extract_metadata workflow
      let scenario_name := md.1
      let domain := md.2.1
      let prompt := buildPrompt domain (params_section_of params) workflow_yaml
      match agent.run prompt with
      | .error e => ((.error e, [prompt]), self)
      | .ok response =>
        ((.ok (.success scenario_name domain response.result.text
            ("Successfully executed workflow \x27" ++ pyStr scenario_name ++
              "\x27 using agent")), [prompt]), self)
    | .ok workflow =>
      ((.error (.attributeError ("\x27" ++ pyTypeName workflow ++
          "\x27 object has no attribute \x27get\x27")), []), self)

/-- Containment: `t` occurs as a contiguous substring of `s`. -/
def strContains (s t : String) : Prop :=
  ∃ u v : List Char, s.data = u ++ t.data ++ v

theorem data_append (s t : String) : (s ++ t).data = s.data ++ t.data := by
  cases s; cases t; rfl

theorem strContains_self (s : String) : strContains s s :=
  ⟨[], [], by simp⟩

theorem strContains_starts (t rest : String) : strContains (t ++ rest) t :=
  ⟨[], rest.data, by simp [data_append]⟩

theorem strContains_append_left {b t : String} (a : String)
    (h : strContains b t) : strContains (a ++ b) t := by
  obtain ⟨u, v, hu⟩ := h
  exact ⟨a.data ++ u, v, by simp [data_append, hu]⟩

theorem strContains_append_right {a t : String} (b : String)
    (h : strContains a t) : strContains (a ++ b) t := by
  obtain ⟨u, v, hu⟩ := h
  exact ⟨u, v ++ b.data, by simp [data_append, hu]⟩


theorem strContains_trans {s t r : String} (h1 : strContains s t)
    (h2 : strContains t r) : strContains s r := by
  obtain ⟨u, v, hu⟩ := h1
  obtain ⟨u2, v2, hu2⟩ := h2
  exact ⟨u ++ u2, v2 ++ v, by simp [hu, hu2]⟩

/-- Every prompt in the trace of a call is the assembled prompt, and a
prompt is only ever sent when an agent is bound and the document parsed to
a mapping. -/
theorem mem_trace_eq_prompt {self : WorkflowProcessor}
    {safe_load : String → Except String YamlValue} {workflow_yaml : String}
    {params : Option (List (String × JsonValue))} {p : String}
    (hp : p ∈ ((self.process_workflow safe_load workflow_yaml params).1).2) :
    ∃ agent kvs, self.agent = some agent ∧
      safe_load workflow_yaml = .ok (.map kvs) ∧
      p = buildPrompt (dictGet kvs "domain" (.str "general"))
            (params_section_of params) workflow_yaml := by
  obtain ⟨ag⟩ := self
  cases ag with
  | none => simp [WorkflowProcessor.process_workflow] at hp
  | some agent =>
    cases hsl : safe_load workflow_yaml with
    | error e => simp [WorkflowProcessor.process_workflow, hsl] at hp
    | ok v =>
      cases v with
      | map kvs =>
        cases hrun : agent.run (buildPrompt (dictGet kvs "domain" (.str "general"))
            (params_section_of params) workflow_yaml) with
        | error e =>
          simp [WorkflowProcessor.process_workflow, hsl, extract_metadata, hrun] at hp
          exact ⟨agent, kvs, rfl, rfl, hp⟩
        | ok resp =>
          simp [WorkflowProcessor.process_workflow, hsl, extract_metadata, hrun] at hp
          exact ⟨agent, kvs, rfl, rfl, hp⟩
      | null => simp [WorkflowProcessor.process_workflow, hsl] at hp
      | bool b => simp [WorkflowProcessor.process_workflow, hsl] at hp
      | int n => simp [WorkflowProcessor.process_workflow, hsl] at hp
      | str s => simp [WorkflowProcessor.process_workflow, hsl] at hp
      | list xs => simp [WorkflowProcessor.process_workflow, hsl] at hp

/-- C1: for every well-formed document text (one whose parse yields a
mapping) and a bound backend whose call succeeds, `process_workflow`
returns a success outcome whose `scenario_name` and `domain` are exactly
the document fields (or their defaults when absent, via `dict.get`),
whose `result` is the backend payload `response.result.text`, and whose message
is the confirmation message naming the scenario. -/
theorem C1_success_outcome (agent : IAgent)
    (safe_load : String → Except String YamlValue) (workflow_yaml : String)
    (params : Option (List (String × JsonValue)))
    (kvs : List (String × YamlValue)) (response : AgentResponse)
    (hparse : safe_load workflow_yaml = .ok (.map kvs))
    (hrun : agent.run (buildPrompt (dictGet kvs "domain" (.str "general"))
        (params_section_of params) workflow_yaml) = .ok response) :
    (((WorkflowProcessor.mk (some agent)).process_workflow safe_load
        workflow_yaml params).1).1
      = .ok (.success (dictGet kvs "scenario_name" (.str "Unnamed Scenario"))
          (dictGet kvs "domain" (.str "general"))
          response.result.text
          ("Successfully executed workflow \x27" ++
            pyStr (dictGet kvs "scenario_name" (.str "Unnamed Scenario")) ++
            "\x27 using agent")) := by
  simp [WorkflowProcessor.process_workflow, hparse, extract_metadata, hrun]

/-- Witness for C1: the end-to-end example of the spec — a document with
`scenario_name: Refund` and `domain: finance`, parameters `{amount: 50}`,
and a backend echoing `done`. -/
theorem C1_success_outcome_witness :
    (((WorkflowProcessor.mk (some ⟨fun _ => .ok ⟨⟨"done"⟩⟩⟩)).process_workflow
        (fun _ => .ok (.map [("scenario_name", .str "Refund"),
          ("domain", .str "finance")]))
        "scenario_name: Refund\ndomain: finance"
        (some [("amount", .num 50)])).1).1
      = .ok (.success (.str "Refund") (.str "finance") "done"
          "Successfully executed workflow \x27Refund\x27 using agent") := by
  exact C1_success_outcome ⟨fun _ => .ok ⟨⟨"done"⟩⟩⟩
    (fun _ => .ok (.map [("scenario_name", .str "Refund"),
      ("domain", .str "finance")]))
    "scenario_name: Refund\ndomain: finance" (some [("amount", .num 50)])
    [("scenario_name", .str "Refund"), ("domain", .str "finance")]
    ⟨⟨"done"⟩⟩ rfl rfl

/-- C2: with no agent bound, `process_workflow` returns the fixed error
outcome for every document text and parameters, raises nothing (the run is
an `ok`), sends no prompt to any backend (empty trace), and leaves the
state unchanged. -/
theorem C2_no_agent_error (safe_load : String → Except String YamlValue)
    (workflow_yaml : String) (params : Option (List (String × JsonValue))) :
    (WorkflowProcessor.mk none).process_workflow safe_load workflow_yaml params
      = ((.ok (.error "No agent set for workflow processing"), []),
          WorkflowProcessor.mk none) := rfl

/-- C3: when the parse raises, `process_workflow` (with a backend bound)
catches it and returns an error outcome whose message contains the
parser diagnostic, raising nothing and invoking no backend; moreover the
parse boundary is the only place a lower-level failure is wrapped: every
error outcome any call can return is either the unbound-backend message or
the parse-wrap message around a parse diagnostic. -/
theorem C3_parse_failure_wrapped (agent : IAgent)
    (safe_load : String → Except String YamlValue) (workflow_yaml : String)
    (params : Option (List (String × JsonValue))) (diag : String)
    (hparse : safe_load workflow_yaml = .error diag) :
    ((((WorkflowProcessor.mk (some agent)).process_workflow safe_load
          workflow_yaml params).1)
        = (.ok (.error ("Error parsing workflow YAML: " ++ diag)), []) ∧
      strContains ("Error parsing workflow YAML: " ++ diag) diag) ∧
    ∀ (self : WorkflowProcessor) (sl : String → Except String YamlValue)
      (wy : String) (ps : Option (List (String × JsonValue))) (m : String),
        (((self.process_workflow sl wy ps).1).1 = .ok (.error m) →
          m = "No agent set for workflow processing" ∨
          ∃ d, sl wy = .error d ∧ m = "Error parsing workflow YAML: " ++ d) := by
  constructor
  · constructor
    · simp [WorkflowProcessor.process_workflow, hparse]
    · exact strContains_append_left _ (strContains_self diag)
  · intro self sl wy ps m hm
    obtain ⟨ag⟩ := self
    cases ag with
    | none =>
      simp [WorkflowProcessor.process_workflow] at hm
      exact Or.inl hm.symm
    | some agent2 =>
      cases hsl : sl wy with
      | error d =>
        simp [WorkflowProcessor.process_workflow, hsl] at hm
        exact Or.inr ⟨d, rfl, hm.symm⟩
      | ok v =>
        cases v with
        | map kvs =>
          cases hrun : agent2.run (buildPrompt (dictGet kvs "domain" (.str "general"))
              (params_section_of ps) wy) with
          | error e =>
            simp [WorkflowProcessor.process_workflow, hsl, extract_metadata, hrun] at hm
          | ok resp =>
            simp [WorkflowProcessor.process_workflow, hsl, extract_metadata, hrun] at hm
        | null => simp [WorkflowProcessor.process_workflow, hsl] at hm
        | bool b => simp [WorkflowProcessor.process_workflow, hsl] at hm
        | int n => simp [WorkflowProcessor.process_workflow, hsl] at hm
        | str s => simp [WorkflowProcessor.process_workflow, hsl] at hm
        | list xs => simp [WorkflowProcessor.process_workflow, hsl] at hm

/-- Witness for C3: a parser failure whose diagnostic is embedded in the
returned error message. -/
theorem C3_parse_failure_wrapped_witness :
    (((WorkflowProcessor.mk
          (some ⟨fun _ => .ok ⟨⟨"ok"⟩⟩⟩)).process_workflow
        (fun _ => .error "mapping values are not allowed here")
        ": :" none).1)
      = (.ok (.error
          "Error parsing workflow YAML: mapping values are not allowed here"),
          []) := by
  exact (C3_parse_failure_wrapped ⟨fun _ => .ok ⟨⟨"ok"⟩⟩⟩
    (fun _ => .error "mapping values are not allowed here") ": :" none
    "mapping values are not allowed here" rfl).1.1

/-- C6: when the parsed mapping lacks `scenario_name`, `domain`, and
`additional_disclaimers`, the extraction yields `"Unnamed Scenario"`,
`"general"`, and the empty list respectively, and processing such a
document with a bound, succeeding backend still returns a success outcome
— absence of the fields is never an error. -/
theorem C6_defaults (agent : IAgent)
    (safe_load : String → Except String YamlValue) (workflow_yaml : String)
    (params : Option (List (String × JsonValue)))
    (kvs : List (String × YamlValue)) (response : AgentResponse)
    (h1 : dictLookup kvs "scenario_name" = none)
    (h2 : dictLookup kvs "domain" = none)
    (h3 : dictLookup kvs "additional_disclaimers" = none)
    (hparse : safe_load workflow_yaml = .ok (.map kvs))
    (hrun : agent.run (buildPrompt (.str "general")
        (params_section_of params) workflow_yaml) = .ok response) :
    extract_metadata kvs
        = (.str "Unnamed Scenario", .str "general", .list []) ∧
    (((WorkflowProcessor.mk (some agent)).process_workflow safe_load
        workflow_yaml params).1).1
      = .ok (.success (.str "Unnamed Scenario") (.str "general")
          response.result.text
          "Successfully executed workflow \x27Unnamed Scenario\x27 using agent") := by
  have hmd : extract_metadata kvs
      = (.str "Unnamed Scenario", .str "general", .list []) := by
    simp [extract_metadata, dictGet, h1, h2, h3]
  refine ⟨hmd, ?_⟩
  have hd : dictGet kvs "domain" (.str "general") = .str "general" := by
    simp [dictGet, h2]
  simp [WorkflowProcessor.process_workflow, hparse, hmd, hd, hrun, pyStr]

/-- Witness for C6: a mapping with only an unrelated key. -/
theorem C6_defaults_witness :
    extract_metadata [("steps", .list [])]
        = (.str "Unnamed Scenario", .str "general", .list []) ∧
    (((WorkflowProcessor.mk (some ⟨fun _ => .ok ⟨⟨"r"⟩⟩⟩)).process_workflow
        (fun _ => .ok (.map [("steps", .list [])])) "steps: []" none).1).1
      = .ok (.success (.str "Unnamed Scenario") (.str "general") "r"
          "Successfully executed workflow \x27Unnamed Scenario\x27 using agent") := by
  exact C6_defaults ⟨fun _ => .ok ⟨⟨"r"⟩⟩⟩
    (fun _ => .ok (.map [("steps", .list [])])) "steps: []" none
    [("steps", .list [])] ⟨⟨"r"⟩⟩ rfl rfl rfl rfl rfl

/-- C7: an exception raised by the backend call propagates uncaught: the
whole run raises that same exception and produces no outcome at all. -/
theorem C7_backend_failure_propagates (agent : IAgent)
    (safe_load : String → Except String YamlValue) (workflow_yaml : String)
    (params : Option (List (String × JsonValue)))
    (kvs : List (String × YamlValue)) (e : PyExc)
    (hparse : safe_load workflow_yaml = .ok (.map kvs))
    (hrun : agent.run (buildPrompt (dictGet kvs "domain" (.str "general"))
        (params_section_of params) workflow_yaml) = .error e) :
    (((WorkflowProcessor.mk (some agent)).process_workflow safe_load
        workflow_yaml params).1).1 = .error e := by
  simp [WorkflowProcessor.process_workflow, hparse, extract_metadata, hrun]

/-- Witness for C7: a backend that raises. -/
theorem C7_backend_failure_propagates_witness :
    (((WorkflowProcessor.mk
          (some ⟨fun _ => .error (.exc "boom")⟩)).process_workflow
        (fun _ => .ok (.map [])) "x: 1" none).1).1
      = .error (.exc "boom") := by
  exact C7_backend_failure_propagates ⟨fun _ => .error (.exc "boom")⟩
    (fun _ => .ok (.map [])) "x: 1" none [] (.exc "boom") rfl rfl

/-- C8: `process_workflow` is a deterministic function of the document,
the parameters, the parser, and the input–output behaviour of the backend: two
backends with extensionally equal `run` functions produce identical
results and traces on the same inputs. -/
theorem C8_deterministic (a1 a2 : IAgent)
    (safe_load : String → Except String YamlValue) (workflow_yaml : String)
    (params : Option (List (String × JsonValue)))
    (h : ∀ s, a1.run s = a2.run s) :
    ((WorkflowProcessor.mk (some a1)).process_workflow safe_load
        workflow_yaml params).1
      = ((WorkflowProcessor.mk (some a2)).process_workflow safe_load
          workflow_yaml params).1 := by
  have ha : a1 = a2 := by
    cases a1; cases a2
    simp only [IAgent.mk.injEq]
    funext s
    exact h s
  rw [ha]

/-- Witness for C8: two structurally separate but behaviourally equal
backends. -/
theorem C8_deterministic_witness :
    ((WorkflowProcessor.mk (some ⟨fun _ => .ok ⟨⟨"same"⟩⟩⟩)).process_workflow
        (fun _ => .ok (.map [])) "a: 1" none).1
      = ((WorkflowProcessor.mk
            (some ⟨fun p => if p = p then .ok ⟨⟨"same"⟩⟩ else .ok ⟨⟨"other"⟩⟩⟩)).process_workflow
          (fun _ => .ok (.map [])) "a: 1" none).1 := by
  exact C8_deterministic ⟨fun _ => .ok ⟨⟨"same"⟩⟩⟩
    ⟨fun p => if p = p then .ok ⟨⟨"same"⟩⟩ else .ok ⟨⟨"other"⟩⟩⟩
    (fun _ => .ok (.map [])) "a: 1" none (fun s => by simp)

/-- C9: a document that parses to a non-mapping value makes
`process_workflow` (with a backend bound) raise an uncaught
`AttributeError` at the first `workflow.get` — no success or error
outcome is returned, and the backend is never invoked. -/
theorem C9_nonmapping_raises (agent : IAgent)
    (safe_load : String → Except String YamlValue) (workflow_yaml : String)
    (params : Option (List (String × JsonValue))) (v : YamlValue)
    (hparse : safe_load workflow_yaml = .ok v)
    (hnm : ∀ kvs, v ≠ .map kvs) :
    ((WorkflowProcessor.mk (some agent)).process_workflow safe_load
        workflow_yaml params).1
      = (.error (.attributeError ("\x27" ++ pyTypeName v ++
          "\x27 object has no attribute \x27get\x27")), []) := by
  cases v with
  | map kvs => exact absurd rfl (hnm kvs)
  | null => simp [WorkflowProcessor.process_workflow, hparse, pyTypeName]
  | bool b => simp [WorkflowProcessor.process_workflow, hparse, pyTypeName]
  | int n => simp [WorkflowProcessor.process_workflow, hparse, pyTypeName]
  | str s => simp [WorkflowProcessor.process_workflow, hparse, pyTypeName]
  | list xs => simp [WorkflowProcessor.process_workflow, hparse, pyTypeName]

/-- Witness for C9: the empty document parses to `None`, and the run
raises an AttributeError naming the NoneType attribute lookup. -/
theorem C9_nonmapping_raises_witness :
    ((WorkflowProcessor.mk (some ⟨fun _ => .ok ⟨⟨"ok"⟩⟩⟩)).process_workflow
        (fun _ => .ok .null) "" none).1
      = (.error (.attributeError
          "\x27NoneType\x27 object has no attribute \x27get\x27"), []) := by
  exact C9_nonmapping_raises ⟨fun _ => .ok ⟨⟨"ok"⟩⟩⟩ (fun _ => .ok .null)
    "" none .null rfl (fun kvs h => by cases h)

/-- C10: `process_workflow` leaves the adapter state unchanged on every
invocation, and the agent field is assigned only by construction and by
`set_agent`. -/
theorem C10_state_frame (self : WorkflowProcessor)
    (safe_load : String → Except String YamlValue) (workflow_yaml : String)
    (params : Option (List (String × JsonValue)))
    (agent0 : Option IAgent) (a : IAgent) :
    (self.process_workflow safe_load workflow_yaml params).2 = self ∧
    (WorkflowProcessor.init agent0).agent = agent0 ∧
    (self.set_agent a).agent = some a := by
  refine ⟨?_, rfl, rfl⟩
  obtain ⟨ag⟩ := self
  cases ag with
  | none => rfl
  | some agent =>
    cases hsl : safe_load workflow_yaml with
    | error e => simp [WorkflowProcessor.process_workflow, hsl]
    | ok v =>
      cases v with
      | map kvs =>
        cases hrun : agent.run (buildPrompt (dictGet kvs "domain" (.str "general"))
            (params_section_of params) workflow_yaml) with
        | error e =>
          simp [WorkflowProcessor.process_workflow, hsl, extract_metadata, hrun]
        | ok resp =>
          simp [WorkflowProcessor.process_workflow, hsl, extract_metadata, hrun]
      | null => simp [WorkflowProcessor.process_workflow, hsl]
      | bool b => simp [WorkflowProcessor.process_workflow, hsl]
      | int n => simp [WorkflowProcessor.process_workflow, hsl]
      | str s => simp [WorkflowProcessor.process_workflow, hsl]
      | list xs => simp [WorkflowProcessor.process_workflow, hsl]

/-- Each key of a non-empty JSON object occurs (as its quoted rendering) in
the rendered object body. -/
theorem jsonRenderObj_contains_key :
    ∀ (kvs : List (String × JsonValue)) (lvl : Nat) (k : String)
      (v : JsonValue) (k2 : String) (v2 : JsonValue),
      (k2, v2) ∈ (k, v) :: kvs →
      strContains (jsonRenderObj lvl k v kvs) (jsonQuote k2) := by
  intro kvs
  induction kvs with
  | nil =>
    intro lvl k v k2 v2 hmem
    simp only [List.mem_singleton, Prod.mk.injEq] at hmem
    obtain ⟨hk, _⟩ := hmem
    subst hk
    simp only [jsonRenderObj]
    exact strContains_append_right _ (strContains_starts _ _)
  | cons kv3 rest ih =>
    intro lvl k v k2 v2 hmem
    obtain ⟨k3, v3⟩ := kv3
    simp only [jsonRenderObj]
    rcases List.mem_cons.mp hmem with heq | htail
    · obtain ⟨hk, _⟩ := Prod.mk.injEq .. |>.mp heq
      subst hk
      exact strContains_append_right _ (strContains_append_right _
        (strContains_append_right _ (strContains_append_right _
          (strContains_starts _ _))))
    · exact strContains_append_left _ (ih lvl k3 v3 k2 v2 htail)

/-- Each key of a non-empty `params` dict occurs (quoted) in the rendered
parameters section. -/
theorem params_section_contains_key (ps : List (String × JsonValue))
    (k : String) (v : JsonValue) (hmem : (k, v) ∈ ps) :
    strContains (params_section_of (some ps)) (jsonQuote k) := by
  cases ps with
  | nil => cases hmem
  | cons kv rest =>
    obtain ⟨k0, v0⟩ := kv
    have hobj := jsonRenderObj_contains_key rest 0 k0 v0 k v hmem
    show strContains ("\nParameters:\n" ++ json_dumps_indent2 ((k0, v0) :: rest))
      (jsonQuote k)
    apply strContains_append_left
    show strContains (jsonRender 0 (.obj ((k0, v0) :: rest))) (jsonQuote k)
    simp only [jsonRender]
    apply strContains_append_right
    apply strContains_append_right
    apply strContains_append_right
    exact strContains_append_left _ hobj

/-- C4: every instruction sent to the backend renders every key of a
provided non-empty parameters mapping (as its JSON-quoted form inside the
pretty-printed dump), and when `params` is omitted or empty the
instruction is exactly the template with no parameters section at all. -/
theorem C4_params_rendering (self : WorkflowProcessor)
    (safe_load : String → Except String YamlValue) (workflow_yaml : String)
    (params : Option (List (String × JsonValue))) (p : String)
    (hp : p ∈ ((self.process_workflow safe_load workflow_yaml params).1).2) :
    (∀ ps, params = some ps → ∀ kv ∈ ps, strContains p (jsonQuote kv.1)) ∧
    (params = none ∨ params = some [] →
      ∃ dom, p = promptSeg1 ++ dom ++ promptSeg2 ++ promptSeg3 ++
        workflow_yaml ++ promptSeg4 ++ promptSeg5) := by
  obtain ⟨agent, kvs, hag, hsl, rfl⟩ := mem_trace_eq_prompt hp
  constructor
  · rintro ps rfl kv hkv
    obtain ⟨k, v⟩ := kv
    have hps := params_section_contains_key ps k v hkv
    unfold buildPrompt
    apply strContains_append_right
    apply strContains_append_right
    apply strContains_append_right
    apply strContains_append_right
    exact strContains_append_left _ hps
  · rintro (rfl | rfl)
    · exact ⟨pyStr (dictGet kvs "domain" (.str "general")),
        by simp [buildPrompt, params_section_of]⟩
    · exact ⟨pyStr (dictGet kvs "domain" (.str "general")),
        by simp [buildPrompt, params_section_of]⟩

/-- Witness for C4: with parameters `{amount: 50}`, the instruction
contains the rendered key `"amount"`. -/
theorem C4_params_rendering_witness :
    strContains
      (buildPrompt (.str "general")
        (params_section_of (some [("amount", JsonValue.num 50)])) "steps: []")
      (jsonQuote "amount") := by
  have h := (C4_params_rendering
      (WorkflowProcessor.mk (some ⟨fun _ => .ok ⟨⟨"ok"⟩⟩⟩))
      (fun _ => .ok (.map [])) "steps: []" (some [("amount", JsonValue.num 50)])
      (buildPrompt (.str "general")
        (params_section_of (some [("amount", JsonValue.num 50)])) "steps: []")
      (List.mem_singleton.mpr rfl)).1
    [("amount", JsonValue.num 50)] rfl ("amount", JsonValue.num 50)
    (List.mem_singleton.mpr rfl)
  exact h

/-- C5: every instruction sent to the backend embeds the document text
byte-for-byte as a contiguous substring, and is exactly the fixed-order
concatenation: domain statement, optional parameters block, fenced
verbatim document text, step-execution directives, placeholder-substitution
directive. -/
theorem C5_prompt_structure (self : WorkflowProcessor)
    (safe_load : String → Except String YamlValue) (workflow_yaml : String)
    (params : Option (List (String × JsonValue))) (p : String)
    (hp : p ∈ ((self.process_workflow safe_load workflow_yaml params).1).2) :
    strContains p workflow_yaml ∧
    ∃ kvs, safe_load workflow_yaml = .ok (.map kvs) ∧
      p = promptSeg1 ++ pyStr (dictGet kvs "domain" (.str "general")) ++
          promptSeg2 ++ params_section_of params ++ promptSeg3 ++
          workflow_yaml ++ promptSeg4 ++ promptSeg5 := by
  obtain ⟨agent, kvs, hag, hsl, rfl⟩ := mem_trace_eq_prompt hp
  refine ⟨?_, kvs, hsl, rfl⟩
  unfold buildPrompt
  apply strContains_append_right
  apply strContains_append_right
  exact strContains_append_left _ (strContains_self _)

/-- Witness for C5: a concrete run whose instruction contains the document
text verbatim. -/
theorem C5_prompt_structure_witness :
    strContains
      (buildPrompt (.str "general") (params_section_of none) "steps: []")
      "steps: []" := by
  exact (C5_prompt_structure
    (WorkflowProcessor.mk (some ⟨fun _ => .ok ⟨⟨"ok"⟩⟩⟩))
    (fun _ => .ok (.map [])) "steps: []" none
    (buildPrompt (.str "general") (params_section_of none) "steps: []")
    (List.mem_singleton.mpr rfl)).1
